import Mathlib

/-!
Shallow embedding of `src/servo/components/style/parser.rs`: the CSS
parsing-context contract (`ParserContext`, its four constructors, the
`rule_type()` accessor, `log_css_error`, and the `Parse` implementations
for `Vec<T>` and `UnicodeRange`), together with theorems settling the
specification claims about it.

Opaque collaborator types (`UrlExtraData`, `Namespaces`,
`ContextualParseError`, tokens) are modelled as `Nat` handles: the code
under verification never inspects them, only threads them through.
Machine integers are modelled as `Nat` with explicit `% 2^32` where the
Rust code casts or adds in `u32`.
-/

namespace Gecko

/-- The `Origin` of a stylesheet (`stylesheets::Origin`): user agent,
user or author. -/
inductive Origin where
  | UserAgent
  | User
  | Author
deriving DecidableEq, Repr

/-- The quirks mode of a document (`context::QuirksMode`). -/
inductive QuirksMode where
  | Quirks
  | LimitedQuirks
  | NoQuirks
deriving DecidableEq, Repr

/-- The kind of CSS rule currently being parsed
(`stylesheets::CssRuleType`), a closed enumeration opaque to this core. -/
inductive CssRuleType where
  | Charset
  | Import
  | Style
  | Media
  | FontFace
  | Page
  | Keyframes
  | Keyframe
  | Margin
  | Namespace
  | CounterStyle
  | Supports
  | Document
  | Viewport
deriving DecidableEq, Repr

/-- Opaque handle for the url-resolution data (`UrlExtraData`); the core
only threads it. -/
abbrev UrlExtraData := Nat

/-- Opaque handle for a borrowed namespace table (`Namespaces`). -/
abbrev Namespaces := Nat

/-- Bitset of parsing-leniency flags (`ParsingMode`), opaque here. -/
abbrev ParsingMode := Nat

/-- Opaque structured parse-error value (`ContextualParseError`). -/
abbrev ContextualParseError := Nat

/-- A `(line, column)` source position (`cssparser::SourceLocation`);
both components are `u32` in the source. -/
structure SourceLocation where
  line : Nat
  column : Nat
deriving DecidableEq, Repr

/-- The data the parser needs from outside in order to parse a
stylesheet (`ParserContext`). Field for field as in the source;
`line_number_offset` is a `u64` there. -/
structure ParserContext where
  stylesheet_origin : Origin
  url_data : UrlExtraData
  rule_type : Option CssRuleType
  line_number_offset : Nat
  parsing_mode : ParsingMode
  quirks_mode : QuirksMode
  namespaces : Option Namespaces
deriving DecidableEq, Repr

/-- The context required to report a parse error
(`ParserErrorContext`): a borrowed error-reporter capability. The
reporter is modelled as a function returning a value of an arbitrary
type `ρ`, so theorems can observe exactly what was forwarded to it. -/
structure ParserErrorContext (ρ : Type) where
  error_reporter : UrlExtraData → SourceLocation → ContextualParseError → ρ

/-- Result of an operation that either produces a value or dies with a
fatal message, modelling Rust `Option::expect`. -/
inductive ExpectResult (α : Type) where
  | fatal (msg : String)
  | ok (a : α)
deriving DecidableEq, Repr

/-- Rust `Option::expect`: the contained value, or a fatal contract
violation carrying the message when absent. -/
def expect {α : Type} : Option α → String → ExpectResult α
  | some a, _ => ExpectResult.ok a
  | none, msg => ExpectResult.fatal msg

/-- `ParserContext::new`: the general constructor.
`line_number_offset` is `0`; `namespaces` is `None`; the `rule_type`
argument is stored as given. -/
def ParserContext.new (stylesheet_origin : Origin) (url_data : UrlExtraData)
    (rule_type : Option CssRuleType) (parsing_mode : ParsingMode)
    (quirks_mode : QuirksMode) : ParserContext :=
  { stylesheet_origin := stylesheet_origin
    url_data := url_data
    rule_type := rule_type
    line_number_offset := 0
    parsing_mode := parsing_mode
    quirks_mode := quirks_mode
    namespaces := none }

/-- `ParserContext::new_for_cssom`: on-the-fly (CSSOM) parsing; forwards
to `new` with `Origin::Author`. -/
def ParserContext.new_for_cssom (url_data : UrlExtraData)
    (rule_type : Option CssRuleType) (parsing_mode : ParsingMode)
    (quirks_mode : QuirksMode) : ParserContext :=
  ParserContext.new Origin.Author url_data rule_type parsing_mode quirks_mode

/-- `ParserContext::new_with_rule_type`: derives a child context from a
parent, overriding the rule type and attaching a namespace table. -/
def ParserContext.new_with_rule_type (context : ParserContext)
    (rule_type : CssRuleType) (namespaces : Namespaces) : ParserContext :=
  { stylesheet_origin := context.stylesheet_origin
    url_data := context.url_data
    rule_type := some rule_type
    line_number_offset := context.line_number_offset
    parsing_mode := context.parsing_mode
    quirks_mode := context.quirks_mode
    namespaces := some namespaces }

/-- `ParserContext::new_with_line_number_offset`: inline CSS with a line
offset; `rule_type` is `None` and `namespaces` is `None`. -/
def ParserContext.new_with_line_number_offset (stylesheet_origin : Origin)
    (url_data : UrlExtraData) (line_number_offset : Nat)
    (parsing_mode : ParsingMode) (quirks_mode : QuirksMode) : ParserContext :=
  { stylesheet_origin := stylesheet_origin
    url_data := url_data
    rule_type := none
    line_number_offset := line_number_offset
    parsing_mode := parsing_mode
    quirks_mode := quirks_mode
    namespaces := none }

/-- The `ParserContext::rule_type()` accessor:
`self.rule_type.expect("Rule type expected, but none was found.")`.
Named `rule_type_value` because the field already holds the name. -/
def ParserContext.rule_type_value (c : ParserContext) : ExpectResult CssRuleType :=
  expect c.rule_type "Rule type expected, but none was found."

/-- `ParserContext::log_css_error`: builds an adjusted location whose
line is `location.line + self.line_number_offset as u32` (the `u64`
offset truncated to 32 bits, added in `u32` arithmetic) and whose
column is unchanged, then calls the reporter with
`(url_data, adjusted_location, error)`. -/
def ParserContext.log_css_error {ρ : Type} (c : ParserContext)
    (context : ParserErrorContext ρ) (location : SourceLocation)
    (error : ContextualParseError) : ρ :=
  let location2 : SourceLocation :=
    { line := (location.line + c.line_number_offset % 2 ^ 32) % 2 ^ 32
      column := location.column }
  context.error_reporter c.url_data location2 error

/-- A token of the lexed input stream, opaque here. -/
abbrev Token := Nat

/-- A parse function over a rewindable token stream: it either consumes
a value and returns the rest of the input, or fails (the caller rewinds
by keeping its own copy of the input). -/
abbrev ParserFn (α : Type) := List Token → Option (α × List Token)

/-- A separator-consumption function: consumes the declared separator
token(s) at the head of the input, or fails. -/
abbrev SepFn := List Token → Option (List Token)

/-- Modelled from the spec: the loop of the separator-policy sequence
parse (`<T as OneOrMoreSeparated>::S::parse` from `style_traits`, whose
code is not in this repository). After one element has been parsed,
repeatedly attempt to consume the declared separator; when no separator
is found (or the input is exhausted) stop with the elements collected so
far; after a separator, parse another element (failing the whole parse
if it cannot be parsed). Fuel bounds the recursion. -/
def sepSeqLoop {α : Type} (p : ParserFn α) (sep : SepFn) :
    Nat → List α → List Token → Option (List α × List Token)
  | 0, acc, input => some (acc.reverse, input)
  | fuel + 1, acc, input =>
    match sep input with
    | none => some (acc.reverse, input)
    | some rest =>
      match p rest with
      | none => none
      | some (a, rest2) => sepSeqLoop p sep fuel (a :: acc) rest2

/-- Modelled from the spec: the separator-policy sequence parse
(`Separator::parse` from `style_traits`, not in this repository).
One-or-more semantics: parse one element first (zero elements is a
parse failure), then enter the separator loop. -/
def sepSeqParse {α : Type} (p : ParserFn α) (sep : SepFn)
    (input : List Token) : Option (List α × List Token) :=
  match p input with
  | none => none
  | some (a, rest) => sepSeqLoop p sep (rest.length + 1) [a] rest

/-- The `impl<T> Parse for Vec<T>` from the source: delegates to the
separator policy with the element parse closed over the context,
`S::parse(input, |i| T::parse(context, i))`. -/
def vecParse {α : Type} (elemParse : ParserContext → ParserFn α)
    (sep : SepFn) (context : ParserContext) (input : List Token) :
    Option (List α × List Token) :=
  sepSeqParse (fun i => elemParse context i) sep input

/-- The `impl Parse for UnicodeRange` from the source: ignores the
context and delegates to the value type's own parse,
`UnicodeRange::parse(input).map_err(|e| e.into())`. The value type's
own parse and the error conversion are parameters, since their code
lives outside this repository. -/
def unicodeRangeParseImpl {υ ε ε2 : Type}
    (parseUR : List Token → Except ε (υ × List Token)) (intoErr : ε → ε2)
    (_context : ParserContext) (input : List Token) :
    Except ε2 (υ × List Token) :=
  (parseUR input).mapError intoErr

end Gecko

namespace Gecko

/-- Claim C1 counterexample: a context built via `ParserContext::new`
with `rule_type = Some(Style)` does not have an absent `rule_type`
field, refuting the claim that every context built via the general
constructor has `rule_type = None`. -/
theorem c1_counterexample :
    ¬ ((ParserContext.new Origin.Author 0 (some CssRuleType.Style) 0
        QuirksMode.NoQuirks).rule_type = none) := by
  decide

/-- Claim C1 (amended): a context built via `ParserContext::new` has
`rule_type` equal to the `rule_type` argument that was passed — so it is
absent exactly when that argument is `None`, and in that case invoking
the rule-type accessor is a fatal contract violation. -/
theorem c1_new_rule_type (o : Origin) (u : UrlExtraData)
    (rt : Option CssRuleType) (pm : ParsingMode) (qm : QuirksMode) :
    (ParserContext.new o u rt pm qm).rule_type = rt ∧
    (rt = none →
      ∃ msg, (ParserContext.new o u rt pm qm).rule_type_value =
        ExpectResult.fatal msg) := by
  refine ⟨rfl, fun h => ?_⟩
  subst h
  exact ⟨"Rule type expected, but none was found.", rfl⟩

/-- Witness for C1: instantiated at `rule_type = None`, the accessor on
the constructed context is a fatal contract violation. -/
theorem c1_new_rule_type_witness :
    (ParserContext.new Origin.Author 0 none 0 QuirksMode.NoQuirks).rule_type
      = none ∧
    ∃ msg, (ParserContext.new Origin.Author 0 none 0
      QuirksMode.NoQuirks).rule_type_value = ExpectResult.fatal msg := by
  have h := c1_new_rule_type Origin.Author 0 none 0 QuirksMode.NoQuirks
  exact ⟨h.1, h.2 rfl⟩

/-- Claim C2: a context derived via `new_with_rule_type(p, R, ns)` has
`rule_type = Some(R)` (so the accessor returns exactly `R`), and its
origin, url data, line-number offset, parsing mode and quirks mode all
equal the parent's. -/
theorem c2_new_with_rule_type (p : ParserContext) (R : CssRuleType)
    (ns : Namespaces) :
    (ParserContext.new_with_rule_type p R ns).rule_type = some R ∧
    (ParserContext.new_with_rule_type p R ns).rule_type_value =
      ExpectResult.ok R ∧
    (ParserContext.new_with_rule_type p R ns).stylesheet_origin =
      p.stylesheet_origin ∧
    (ParserContext.new_with_rule_type p R ns).url_data = p.url_data ∧
    (ParserContext.new_with_rule_type p R ns).line_number_offset =
      p.line_number_offset ∧
    (ParserContext.new_with_rule_type p R ns).parsing_mode =
      p.parsing_mode ∧
    (ParserContext.new_with_rule_type p R ns).quirks_mode = p.quirks_mode :=
  ⟨rfl, rfl, rfl, rfl, rfl, rfl, rfl⟩

/-- Claim C3 counterexample: with `line_number_offset = 2^32` and raw
location `(2, 3)`, the reporter receives line `2`, not `2 + 2^32`: the
`u64` offset is truncated to `u32` before the addition, so the claim
that the forwarded line is always the raw line plus the full offset is
false. -/
theorem c3_counterexample :
    ¬ ((ParserContext.new_with_line_number_offset Origin.Author 0 (2 ^ 32) 0
          QuirksMode.NoQuirks).log_css_error
        ⟨fun u l e => (u, l, e)⟩ ⟨2, 3⟩ 0 =
        ((0 : UrlExtraData), SourceLocation.mk (2 + 2 ^ 32) 3,
          (0 : ContextualParseError))) := by
  decide

/-- Claim C3 (amended): `log_css_error` forwards to the error reporter
the triple of the context's url data, an adjusted location whose line is
the raw line plus the offset truncated to 32 bits (in `u32` arithmetic)
and whose column equals the raw column, and the error; in particular
with `line_number_offset = 5` and raw location `(2, 3)` the forwarded
location is `(7, 3)`. -/
theorem c3_log_css_error {ρ : Type} (c : ParserContext)
    (ec : ParserErrorContext ρ) (loc : SourceLocation)
    (err : ContextualParseError) :
    c.log_css_error ec loc err =
      ec.error_reporter c.url_data
        ⟨(loc.line + c.line_number_offset % 2 ^ 32) % 2 ^ 32, loc.column⟩
        err ∧
    (ParserContext.new_with_line_number_offset Origin.Author 0 5 0
        QuirksMode.NoQuirks).log_css_error
      ⟨fun u l e => (u, l, e)⟩ ⟨2, 3⟩ 0 =
      ((0 : UrlExtraData), SourceLocation.mk 7 3,
        (0 : ContextualParseError)) :=
  ⟨rfl, by decide⟩

/-- Claim C4: the `rule_type()` accessor is a fatal contract violation
exactly when the context's `rule_type` field is `None`; when the field
is `Some(R)`, the fatal branch is not taken and the accessor returns
`R`. -/
theorem c4_rule_type_fatal (c : ParserContext) :
    ((∃ msg, c.rule_type_value = ExpectResult.fatal msg) ↔
      c.rule_type = none) ∧
    (∀ R, c.rule_type = some R → c.rule_type_value = ExpectResult.ok R) := by
  constructor
  · constructor
    · rintro ⟨msg, hmsg⟩
      cases h : c.rule_type with
      | none => rfl
      | some r =>
        rw [ParserContext.rule_type_value, h] at hmsg
        exact absurd hmsg (by simp [expect])
    · intro h
      rw [ParserContext.rule_type_value, h]
      exact ⟨"Rule type expected, but none was found.", rfl⟩
  · intro R h
    rw [ParserContext.rule_type_value, h]
    rfl

/-- Witness for C4: on a concrete context carrying `Some(Media)`, the
accessor returns `Media`. -/
theorem c4_rule_type_fatal_witness :
    (ParserContext.new_with_rule_type
      (ParserContext.new Origin.User 1 none 0 QuirksMode.Quirks)
      CssRuleType.Media 4).rule_type_value = ExpectResult.ok CssRuleType.Media :=
  (c4_rule_type_fatal _).2 CssRuleType.Media rfl

/-- Claim C5: `namespaces` is `Some` on every context produced by
`new_with_rule_type`, and `None` on every context produced by `new`,
`new_for_cssom` or `new_with_line_number_offset`. -/
theorem c5_namespaces_invariant :
    (∀ (p : ParserContext) (R : CssRuleType) (ns : Namespaces),
      (ParserContext.new_with_rule_type p R ns).namespaces = some ns) ∧
    (∀ (o : Origin) (u : UrlExtraData) (rt : Option CssRuleType)
      (pm : ParsingMode) (qm : QuirksMode),
      (ParserContext.new o u rt pm qm).namespaces = none) ∧
    (∀ (u : UrlExtraData) (rt : Option CssRuleType) (pm : ParsingMode)
      (qm : QuirksMode),
      (ParserContext.new_for_cssom u rt pm qm).namespaces = none) ∧
    (∀ (o : Origin) (u : UrlExtraData) (off : Nat) (pm : ParsingMode)
      (qm : QuirksMode),
      (ParserContext.new_with_line_number_offset o u off pm qm).namespaces
        = none) :=
  ⟨fun _ _ _ => rfl, fun _ _ _ _ _ => rfl, fun _ _ _ _ => rfl,
    fun _ _ _ _ _ => rfl⟩

/-- Claim C6: sequence parsing via the `Vec<T>` implementation on input
where no element can be parsed is a parse failure, never an empty
sequence: one or more elements are required. -/
theorem c6_one_or_more {α : Type} (elemParse : ParserContext → ParserFn α)
    (sep : SepFn) (c : ParserContext) (input : List Token)
    (h : elemParse c input = none) :
    vecParse elemParse sep c input = none := by
  unfold vecParse sepSeqParse
  simp only [h]

/-- Witness for C6: a concrete element parse (accepting only a leading
token `1`) fails on empty input, so the sequence parse fails there. -/
theorem c6_one_or_more_witness :
    vecParse
      (fun _ ts => match ts with
        | 1 :: r => some ((1 : Nat), r)
        | _ => none)
      (fun ts => match ts with
        | 0 :: r => some r
        | _ => none)
      (ParserContext.new Origin.Author 0 none 0 QuirksMode.NoQuirks)
      [] = none :=
  c6_one_or_more _ _ _ [] rfl

/-- Claim C7: `new_for_cssom` produces a context whose origin is
`Author`, and which is equal to the context produced by `new` called
with `Origin::Author` and the same remaining arguments. -/
theorem c7_new_for_cssom (u : UrlExtraData) (rt : Option CssRuleType)
    (pm : ParsingMode) (qm : QuirksMode) :
    (ParserContext.new_for_cssom u rt pm qm).stylesheet_origin =
      Origin.Author ∧
    ParserContext.new_for_cssom u rt pm qm =
      ParserContext.new Origin.Author u rt pm qm :=
  ⟨rfl, rfl⟩

/-- Claim C8: `new_with_line_number_offset` produces a context with
`rule_type = None` and `namespaces = None` regardless of the offset, and
its `line_number_offset` field equals the given offset. -/
theorem c8_new_with_line_number_offset (o : Origin) (u : UrlExtraData)
    (off : Nat) (pm : ParsingMode) (qm : QuirksMode) :
    (ParserContext.new_with_line_number_offset o u off pm qm).rule_type
      = none ∧
    (ParserContext.new_with_line_number_offset o u off pm qm).namespaces
      = none ∧
    (ParserContext.new_with_line_number_offset o u off
      pm qm).line_number_offset = off :=
  ⟨rfl, rfl, rfl⟩

/-- Claim C9: the dedicated `UnicodeRange` parse implementation
delegates directly to the value type's own parse applied to the input
(mapping the error), bypassing the separator-based loop; in particular
its result is the same for any two contexts (the context is ignored). -/
theorem c9_unicode_range_delegation {υ ε ε2 : Type}
    (parseUR : List Token → Except ε (υ × List Token)) (intoErr : ε → ε2)
    (c1 c2 : ParserContext) (input : List Token) :
    unicodeRangeParseImpl parseUR intoErr c1 input =
      (parseUR input).mapError intoErr ∧
    unicodeRangeParseImpl parseUR intoErr c1 input =
      unicodeRangeParseImpl parseUR intoErr c2 input :=
  ⟨rfl, rfl⟩

/-- Claim C10: in `log_css_error` the `u64` offset is truncated to 32
bits before being added to the raw line, so the forwarded line equals
`(raw line + (offset mod 2^32)) mod 2^32` in `u32` arithmetic; in
particular an offset of `2^32` does not shift the line at all. -/
theorem c10_offset_truncation {ρ : Type} (c : ParserContext)
    (ec : ParserErrorContext ρ) (loc : SourceLocation)
    (err : ContextualParseError) :
    c.log_css_error ec loc err =
      ec.error_reporter c.url_data
        ⟨(loc.line + c.line_number_offset % 2 ^ 32) % 2 ^ 32, loc.column⟩
        err ∧
    (ParserContext.new_with_line_number_offset Origin.Author 0 (2 ^ 32) 0
        QuirksMode.NoQuirks).log_css_error
      ⟨fun _ l _ => l⟩ ⟨2, 3⟩ 0 = SourceLocation.mk 2 3 :=
  ⟨rfl, by decide⟩

end Gecko
